import Mathlib

/-!
Shallow embedding of `src/app.js`, a small Express relay that looks up a
shipment tracking number against the ShipStation aggregator API and falls
back to a deterministic synthetic tracking record when no upstream data is
available.

Modelling conventions, used throughout:

* JS strings are Lean `String`s; `charCodeAt` is modelled by `Char.toNat`
  (they agree on the Basic Multilingual Plane, which covers every literal
  in the source and every concrete input below).
* Instants are `Int` milliseconds since the Unix epoch, with the process
  clock fixed to UTC. Under a fixed-offset clock JS
  `d.setHours(d.getHours() - 5)` is exactly `t - 5 * msPerHour` and
  `d.setDate(d.getDate() - k)` is exactly `t - k * msPerDay`, because JS
  `setHours`/`setDate` normalise out-of-range components.
* ISO-8601 timestamp strings (`Date.prototype.toISOString`) are
  represented by the instants they render. The rendering is injective and
  never produces the empty string, so equality and JS truthiness of the
  rendered strings coincide with equality and `Option.isSome` of the
  instants; no property below inspects the digits of a rendered date.
* A missing / `undefined` / `null` JS value is `Option.none`; JS string
  truthiness (the empty string is falsy) is `strTruthy`.
* Each JS regular expression of `detectCarrier` is transcribed as a
  decidable predicate on `List Char` describing exactly the language of
  the (fully anchored) pattern.
-/

/-- JS string truthiness for an optional string: `undefined`, `null` and
the empty string are falsy, every other string is truthy. -/
def strTruthy : Option String → Bool
  | none => false
  | some s => !(s == "")

/-- Character class `[0-9]` (JS `\d`): code points 48 to 57. -/
def isDigitCh (c : Char) : Bool :=
  decide (48 ≤ c.toNat) && decide (c.toNat ≤ 57)

/-- Character class `[A-Z]`: code points 65 to 90. -/
def isUpperAZ (c : Char) : Bool :=
  decide (65 ≤ c.toNat) && decide (c.toNat ≤ 90)

/-- The whitespace characters stripped by JS `String.prototype.trim`
(restricted to the code points that can actually occur here; every
concrete input below is ASCII with no whitespace at all). -/
def isJsWs (c : Char) : Bool :=
  c == ' ' || c == '\t' || c == '\n' || c == '\r' ||
  c == '\x0b' || c == '\x0c' || c == ' '

/-- JS `String.prototype.trim`: strip leading and trailing whitespace. -/
def jsTrim (cs : List Char) : List Char :=
  ((cs.dropWhile isJsWs).reverse.dropWhile isJsWs).reverse

/-- JS `String.prototype.toUpperCase`, on the ASCII letters that every
pattern and concrete input below uses. -/
def jsToUpper (cs : List Char) : List Char :=
  cs.map Char.toUpper

/-- JS `String.prototype.toLowerCase`, on ASCII letters. -/
def jsToLower (s : String) : String :=
  String.mk (s.toList.map Char.toLower)

/- Regex families of `detectCarrier` (src/app.js lines 44-79), one
decidable predicate per source regex, in source order. -/

/-- USPS pattern `^9[4-5]\d{20}$`. -/
def reUsps1 (cs : List Char) : Bool :=
  match cs with
  | '9' :: c :: rest =>
    (c == '4' || c == '5') && rest.length == 20 && rest.all isDigitCh
  | _ => false

/-- USPS pattern `^(91|92|93|94|95|96)\d{20}$`. -/
def reUsps2 (cs : List Char) : Bool :=
  match cs with
  | '9' :: c :: rest =>
    (c == '1' || c == '2' || c == '3' || c == '4' || c == '5' || c == '6') &&
    rest.length == 20 && rest.all isDigitCh
  | _ => false

/-- USPS pattern `^[A-Z]{2}\d{9}[A-Z]{2}$`. -/
def reUsps3 (cs : List Char) : Bool :=
  match cs with
  | a :: b :: rest =>
    isUpperAZ a && isUpperAZ b && rest.length == 11 &&
    (rest.take 9).all isDigitCh && (rest.drop 9).all isUpperAZ
  | _ => false

/-- USPS pattern `^E\D{1}\d{9}\D{2}$` (`\D` is any non-digit). -/
def reUsps4 (cs : List Char) : Bool :=
  match cs with
  | 'E' :: c :: rest =>
    !isDigitCh c && rest.length == 11 &&
    (rest.take 9).all isDigitCh && (rest.drop 9).all (fun d => !isDigitCh d)
  | _ => false

/-- USPS pattern `^[A-Z]{2}\d{9}US$`. -/
def reUsps5 (cs : List Char) : Bool :=
  match cs with
  | a :: b :: rest =>
    isUpperAZ a && isUpperAZ b && rest.length == 11 &&
    (rest.take 9).all isDigitCh && rest.drop 9 == ['U', 'S']
  | _ => false

/-- USPS pattern `^(420\d{5})?(91|92|93|94|95|96)\d{20}$`: the optional
`420\d{5}` group either is absent or consumes exactly eight characters. -/
def reUsps6 (cs : List Char) : Bool :=
  reUsps2 cs ||
  (match cs with
   | '4' :: '2' :: '0' :: rest =>
     (rest.take 5).all isDigitCh && reUsps2 (rest.drop 5)
   | _ => false)

/-- Tail `\d{9}[A-Z]{2}$` shared by the alternatives of the seventh USPS
pattern. -/
def tail9u2 (cs : List Char) : Bool :=
  cs.length == 11 && (cs.take 9).all isDigitCh && (cs.drop 9).all isUpperAZ

/-- USPS pattern
`^(M|P[A-Z]?|D[A-Z]?|LK|E[A-Z]|V[A-Z]?|R[A-Z]?|CP|CJ|LC|LJ)\d{9}[A-Z]{2}$`:
the leading alternation consumes one or two characters, so the whole
pattern matches exactly when some alternative does. -/
def reUsps7 (cs : List Char) : Bool :=
  match cs with
  | c :: rest =>
    ((c == 'M' || c == 'P' || c == 'D' || c == 'V' || c == 'R') && tail9u2 rest) ||
    (match rest with
     | d :: rest2 =>
       (((c == 'P' || c == 'D' || c == 'E' || c == 'V' || c == 'R') && isUpperAZ d) ||
        (c == 'L' && (d == 'K' || d == 'C' || d == 'J')) ||
        (c == 'C' && (d == 'P' || d == 'J'))) && tail9u2 rest2
     | [] => false)
  | [] => false

/-- FedEx pattern `^[0-9]{12,14}$`. -/
def reFedex1 (cs : List Char) : Bool :=
  (cs.length == 12 || cs.length == 13 || cs.length == 14) && cs.all isDigitCh

/-- FedEx pattern `^6\d{11,12}$`. -/
def reFedex2 (cs : List Char) : Bool :=
  match cs with
  | '6' :: rest => (rest.length == 11 || rest.length == 12) && rest.all isDigitCh
  | _ => false

/-- FedEx pattern `^(96\d{20}|\d{15})$`. -/
def reFedex3 (cs : List Char) : Bool :=
  (match cs with
   | '9' :: '6' :: rest => rest.length == 20 && rest.all isDigitCh
   | _ => false) ||
  (cs.length == 15 && cs.all isDigitCh)

/-- UPS pattern `^1Z[0-9A-Z]{16}$`. -/
def reUps1 (cs : List Char) : Bool :=
  match cs with
  | '1' :: 'Z' :: rest =>
    rest.length == 16 && rest.all (fun c => isDigitCh c || isUpperAZ c)
  | _ => false

/-- UPS pattern `^(T\d{10}|927R\d{16})$`. -/
def reUps2 (cs : List Char) : Bool :=
  (match cs with
   | 'T' :: rest => rest.length == 10 && rest.all isDigitCh
   | _ => false) ||
  (match cs with
   | '9' :: '2' :: '7' :: 'R' :: rest => rest.length == 16 && rest.all isDigitCh
   | _ => false)

/-- UPS pattern `^(K\d{10})$`. -/
def reUps3 (cs : List Char) : Bool :=
  match cs with
  | 'K' :: rest => rest.length == 10 && rest.all isDigitCh
  | _ => false

/-- DHL pattern `^\d{10,11}$`. -/
def reDhl1 (cs : List Char) : Bool :=
  (cs.length == 10 || cs.length == 11) && cs.all isDigitCh

/-- DHL pattern `^[0-9]{10}$`. -/
def reDhl2 (cs : List Char) : Bool :=
  cs.length == 10 && cs.all isDigitCh

/-- Canada Post pattern `^([A-Z]{2}\d{9}CA)$`. -/
def reCp1 (cs : List Char) : Bool :=
  match cs with
  | a :: b :: rest =>
    isUpperAZ a && isUpperAZ b && rest.length == 11 &&
    (rest.take 9).all isDigitCh && rest.drop 9 == ['C', 'A']
  | _ => false

/-- Canada Post pattern `^(\d{16})$`. -/
def reCp2 (cs : List Char) : Bool :=
  cs.length == 16 && cs.all isDigitCh

/-- The USPS `if` condition of `detectCarrier`: disjunction of the seven
USPS regexes, in source order. -/
def uspsFamily (tn : List Char) : Bool :=
  reUsps1 tn || reUsps2 tn || reUsps3 tn || reUsps4 tn || reUsps5 tn ||
  reUsps6 tn || reUsps7 tn

/-- The FedEx `if` condition of `detectCarrier` (source grouping
`(p1 || p2) || p3`). -/
def fedexFamily (tn : List Char) : Bool :=
  (reFedex1 tn || reFedex2 tn) || reFedex3 tn

/-- The UPS `if` condition of `detectCarrier`. -/
def upsFamily (tn : List Char) : Bool :=
  reUps1 tn || reUps2 tn || reUps3 tn

/-- The DHL `if` condition of `detectCarrier`. -/
def dhlFamily (tn : List Char) : Bool :=
  reDhl1 tn || reDhl2 tn

/-- The Canada Post `if` condition of `detectCarrier`. -/
def canadaPostFamily (tn : List Char) : Bool :=
  reCp1 tn || reCp2 tn

/-- `detectCarrier` (src/app.js lines 44-79): trim and upper-case the
input, then test the carrier families in source order. The JS function
returns `null` when nothing matches; `null` is embedded as `none` (the
request handler later renders it as the carrier string `"unknown"` via
`carrier || 'unknown'`). -/
def detectCarrier (trackingNumber : String) : Option String :=
  let tn := jsToUpper (jsTrim trackingNumber.toList)
  if uspsFamily tn then some "usps"
  else if fedexFamily tn then some "fedex"
  else if upsFamily tn then some "ups"
  else if dhlFamily tn then some "dhl"
  else if canadaPostFamily tn then some "canada_post"
  else none

/-- The ordered rule table the spec describes for carrier detection:
`(family, carrier)` pairs in the priority order
USPS, FedEx, UPS, DHL, Canada Post. -/
def carrierTable : List ((List Char → Bool) × String) :=
  [(uspsFamily, "usps"), (fedexFamily, "fedex"), (upsFamily, "ups"),
   (dhlFamily, "dhl"), (canadaPostFamily, "canada_post")]

/-- First matching rule of an ordered `(pattern, carrier)` table. -/
def firstMatch : List ((List Char → Bool) × String) → List Char → Option String
  | [], _ => none
  | (p, c) :: rest, tn => if p tn then some c else firstMatch rest tn

/-- Carrier detection as the spec words it: evaluate the ordered rule
table against the trimmed, upper-cased input and return the first match. -/
def detectCarrierOrdered (trackingNumber : String) : Option String :=
  firstMatch carrierTable (jsToUpper (jsTrim trackingNumber.toList))

/- Data model of the tracking records the app builds and serialises. -/

/-- One entry of an `events` array (src/app.js lines 234-293).
`occurred_at` is the instant whose ISO rendering the JS code stores. -/
structure TrackingEvent where
  occurred_at : Int
  description : String
  city_locality : String
  state_province : String
  postal_code : String
  country_code : String
deriving DecidableEq, Repr

/-- The intermediate `trackingInfo` object fed to
`formatTrackingResponse`: the union of the fields the upstream branch
(src/app.js lines 141-149) and `createDefaultTrackingInfo`
(lines 311-319) write and the fields `formatTrackingResponse` reads.
A field a given producer does not set is `none`. -/
structure TrackingData where
  tracking_number : Option String
  carrier_code : Option String
  status : Option String
  tracking_status : Option String
  status_description : Option String
  status_code : Option String
  estimated_delivery_date : Option Int
  ship_date : Option Int
  events : Option (List TrackingEvent)
deriving DecidableEq, Repr

/-- The JSON body of a 200 response (src/app.js lines 208-216 plus the
`tracking_url` the handler attaches at line 164). The branch of
`formatTrackingResponse` for absent data returns an object without
`status_description`, `estimated_delivery_date` and `ship_date` keys;
those absences are `none`. -/
structure TrackingResponse where
  tracking_number : String
  carrier_code : String
  status : String
  status_description : Option String
  estimated_delivery_date : Option Int
  ship_date : Option Int
  events : List TrackingEvent
  tracking_url : Option String
deriving DecidableEq, Repr

/-- The fields of an upstream ShipStation shipment the handler reads
(src/app.js lines 140-146): `shipmentStatus` and `shipDate`. The
`shipDate` string is represented by its instant. -/
structure Shipment where
  shipmentStatus : Option String
  shipDate : Option Int
deriving DecidableEq, Repr

/-- Outcome of the one ShipStation lookup: `failure` when the request
throws (network error or non-2xx response, which axios raises as an
exception), `success shipments` when it returns a body; an absent or
empty `shipments` array is `success []`. -/
inductive UpstreamResult where
  | failure
  | success (shipments : List Shipment)
deriving DecidableEq, Repr

/-- The three response shapes `/tracking` can produce. `serverError` is
the catch-all 500 of src/app.js lines 170-174. -/
inductive HttpResponse where
  | badRequest (error status : String)
  | ok (body : TrackingResponse)
  | serverError (error details status : String)
deriving DecidableEq, Repr

/-- `CARRIER_CODE_MAP` (src/app.js lines 26-32) as a lookup function;
`none` is an absent key. -/
def CARRIER_CODE_MAP (c : String) : Option String :=
  if c == "usps" then some "stamps_com"
  else if c == "fedex" then some "fedex"
  else if c == "ups" then some "ups"
  else if c == "dhl" then some "dhl_express"
  else if c == "canada_post" then some "canada_post"
  else none

/-- `TRACKING_URL_PATTERNS` (src/app.js lines 35-41) as a lookup
function; the bracket lookup is case-sensitive, exactly as in JS. -/
def TRACKING_URL_PATTERNS (c : String) : Option String :=
  if c == "usps" then some "https://tools.usps.com/go/TrackConfirmAction?tLabels="
  else if c == "fedex" then some "https://www.fedex.com/fedextrack/?trknbr="
  else if c == "ups" then some "https://www.ups.com/track?tracknum="
  else if c == "dhl" then some "https://www.dhl.com/en/express/tracking.html?AWB="
  else if c == "canada_post" then some "https://www.canadapost-postescanada.ca/track-reperage/en#/search?searchFor="
  else none

/-- The `statusMap` literal inside `formatTrackingResponse`
(src/app.js lines 197-204). -/
def statusMap (code : String) : Option String :=
  if code == "IN_TRANSIT" then some "In Transit"
  else if code == "DELIVERED" then some "Delivered"
  else if code == "OUT_FOR_DELIVERY" then some "Out for Delivery"
  else if code == "SHIPPED" then some "Shipped"
  else if code == "ACCEPTED" then some "Accepted"
  else if code == "PRE_TRANSIT" then some "Pre-Transit"
  else none

/-- `formatTrackingResponse` (src/app.js lines 179-217). `now` is the
instant the JS code reads with `new Date()` for the `ship_date`
default; `tracking_url` is attached later by the handler, so it is
`none` here. -/
def formatTrackingResponse (trackingData : Option TrackingData)
    (trackingNumber carrierCode : String) (now : Int) : TrackingResponse :=
  match trackingData with
  | none =>
    { tracking_number := trackingNumber
      carrier_code := carrierCode
      status := "Unknown"
      status_description := none
      estimated_delivery_date := none
      ship_date := none
      events := []
      tracking_url := none }
  | some d =>
    let status :=
      if strTruthy d.tracking_status then d.tracking_status.getD ""
      else if strTruthy d.status_description then d.status_description.getD ""
      else if strTruthy d.status_code then
        (statusMap (d.status_code.getD "")).getD (d.status_code.getD "")
      else "Unknown"
    { tracking_number :=
        if strTruthy d.tracking_number then d.tracking_number.getD "" else trackingNumber
      carrier_code :=
        if strTruthy d.carrier_code then d.carrier_code.getD "" else carrierCode
      status := status
      status_description :=
        some (if strTruthy d.status_description then d.status_description.getD "" else status)
      estimated_delivery_date := d.estimated_delivery_date
      ship_date := some (d.ship_date.getD now)
      events := d.events.getD []
      tracking_url := none }

/-- The five synthetic statuses of `createDefaultTrackingInfo`
(src/app.js line 222), in source order. -/
def possibleStatuses : List String :=
  ["PRE_TRANSIT", "SHIPPED", "IN_TRANSIT", "OUT_FOR_DELIVERY", "DELIVERED"]

/-- The character-code sum `trackingNumber.split('').reduce(...)`
(src/app.js line 221). -/
def charSum (s : String) : Nat :=
  (s.toList.map Char.toNat).sum

/-- Milliseconds per hour. -/
def msPerHour : Int := 3600000

/-- Milliseconds per day. -/
def msPerDay : Int := 86400000

/-- The synthetic event list of `createDefaultTrackingInfo`
(src/app.js lines 230-294), as a function of the chosen status string
and the current instant. Construction order is most recent event first,
ending with the label-created event three days back. -/
def defaultEvents (status : String) (now : Int) : List TrackingEvent :=
  if ["DELIVERED", "OUT_FOR_DELIVERY", "IN_TRANSIT", "SHIPPED", "PRE_TRANSIT"].contains status then
    (if status == "DELIVERED" then
      [{ occurred_at := now
         description := "Delivered, Front Door"
         city_locality := "Destination City"
         state_province := "State"
         postal_code := "12345"
         country_code := "US" }]
     else []) ++
    (if ["DELIVERED", "OUT_FOR_DELIVERY"].contains status then
      [{ occurred_at := now - 5 * msPerHour
         description := "Out for Delivery"
         city_locality := "Destination City"
         state_province := "State"
         postal_code := "12345"
         country_code := "US" }]
     else []) ++
    (if ["DELIVERED", "OUT_FOR_DELIVERY", "IN_TRANSIT"].contains status then
      [{ occurred_at := now - 1 * msPerDay
         description := "In Transit"
         city_locality := "Transit Location"
         state_province := "State"
         postal_code := "12345"
         country_code := "US" }]
     else []) ++
    (if ["DELIVERED", "OUT_FOR_DELIVERY", "IN_TRANSIT", "SHIPPED"].contains status then
      [{ occurred_at := now - 2 * msPerDay
         description := "Shipment Picked Up"
         city_locality := "Origin City"
         state_province := "State"
         postal_code := "54321"
         country_code := "US" }]
     else []) ++
    [{ occurred_at := now - 3 * msPerDay
       description := "Shipping Label Created"
       city_locality := "Origin City"
       state_province := "State"
       postal_code := "54321"
       country_code := "US" }]
  else []

/-- The estimated-delivery computation of `createDefaultTrackingInfo`
(src/app.js lines 297-309): null for DELIVERED, otherwise a fixed lead
time from now. -/
def defaultEstimated (status : String) (now : Int) : Option Int :=
  if !(status == "DELIVERED") then
    some (if status == "PRE_TRANSIT" then now + 5 * msPerDay
          else if status == "SHIPPED" then now + 3 * msPerDay
          else if status == "IN_TRANSIT" then now + 2 * msPerDay
          else if status == "OUT_FOR_DELIVERY" then now
          else now)
  else none

/-- JS `String.prototype.replace` with a string pattern replaces only
the first occurrence; this is `status.replace('_', ' ')` of
src/app.js line 315. -/
def replaceFirstUnderscore : List Char → List Char
  | [] => []
  | c :: cs => if c == '_' then ' ' :: cs else c :: replaceFirstUnderscore cs

/-- `createDefaultTrackingInfo` (src/app.js lines 220-320): the
deterministic fallback generator. `now` is the instant of the single
`new Date()` call at line 227. -/
def createDefaultTrackingInfo (trackingNumber carrierCode : String) (now : Int) :
    TrackingData :=
  let hash := charSum trackingNumber
  let statusIndex := hash % possibleStatuses.length
  let status := possibleStatuses.getD statusIndex ""
  let events := defaultEvents status now
  { tracking_number := some trackingNumber
    carrier_code := some carrierCode
    status := none
    tracking_status := none
    status_description := some (jsToLower (String.mk (replaceFirstUnderscore status.toList)))
    status_code := some status
    estimated_delivery_date := defaultEstimated status now
    ship_date := events.getLast?.map (fun e => e.occurred_at)
    events := some events }

/-- Carrier resolution of the handler (src/app.js lines 117-119):
keep a truthy caller-supplied carrier, otherwise auto-detect. -/
def resolveCarrier (tn : String) (carrier : Option String) : Option String :=
  if strTruthy carrier then carrier else detectCarrier tn

/-- The direct tracking URL (src/app.js lines 122-125): built only when
the carrier is truthy and the case-sensitive pattern lookup hits. -/
def directUrl (carrier : Option String) (tn : String) : Option String :=
  if strTruthy carrier then
    match TRACKING_URL_PATTERNS (carrier.getD "") with
    | some base => some (base ++ tn)
    | none => none
  else none

/-- `mappedCarrierCode` (src/app.js line 128):
`carrier ? (CARRIER_CODE_MAP[carrier.toLowerCase()] || carrier) : null`. -/
def mappedCode (carrier : Option String) : Option String :=
  if strTruthy carrier then
    some ((CARRIER_CODE_MAP (jsToLower (carrier.getD ""))).getD (carrier.getD ""))
  else none

/-- The `trackingInfo` object built from the first matching upstream
shipment (src/app.js lines 141-149). -/
def upstreamInfo (tn : String) (mcc : Option String) (s : Shipment) : TrackingData :=
  let st := if strTruthy s.shipmentStatus then s.shipmentStatus.getD "" else "Unknown"
  { tracking_number := some tn
    carrier_code := mcc
    status := some st
    tracking_status := none
    status_description := some st
    status_code := none
    estimated_delivery_date := none
    ship_date := s.shipDate
    events := some [] }

/-- The `GET /tracking` handler (src/app.js lines 105-176).
`tracking_number` and `carrier` are the query parameters (absent is
`none`); `apiKeyConfigured` is the truthiness of
`SHIPSTATION_API_KEY`; `upstream` is the outcome the ShipStation call
would produce if attempted; `now` is the instant of the request. Every
operation after the validation guard is total, so the catch-all 500
branch of the source is unreachable and `serverError` is never built. -/
def handleTracking (tracking_number carrier : Option String)
    (apiKeyConfigured : Bool) (upstream : UpstreamResult) (now : Int) : HttpResponse :=
  if !strTruthy tracking_number then
    .badRequest "Missing tracking number" "error"
  else
    let tn := tracking_number.getD ""
    let c := resolveCarrier tn carrier
    let trackingUrl := directUrl c tn
    let mcc := mappedCode c
    let info : Option TrackingData :=
      if apiKeyConfigured && strTruthy mcc then
        match upstream with
        | .failure => none
        | .success [] => none
        | .success (s :: _) => some (upstreamInfo tn mcc s)
      else none
    let cu := if strTruthy c then c.getD "" else "unknown"
    let data := info.getD (createDefaultTrackingInfo tn cu now)
    let body := formatTrackingResponse (some data) tn cu now
    .ok { body with tracking_url := trackingUrl }

/-- The body the handler produces when no upstream record is obtained:
the fallback generator's record, formatted, with the direct URL
attached. This composition follows the spec's description of the
fallback path and is compared against `handleTracking` below. -/
def fallbackBody (tn : String) (carrier : Option String) (now : Int) : TrackingResponse :=
  let c := resolveCarrier tn carrier
  let cu := if strTruthy c then c.getD "" else "unknown"
  { formatTrackingResponse (some (createDefaultTrackingInfo tn cu now)) tn cu now with
    tracking_url := directUrl c tn }

/-- Body of a 200 response, when there is one. -/
def responseBody : HttpResponse → Option TrackingResponse
  | .ok b => some b
  | _ => none

/-- Whether a response is the catch-all 500. -/
def isServerError : HttpResponse → Bool
  | .serverError _ _ _ => true
  | _ => false

/-- Erase the instant of an event, keeping every other field. -/
def eraseEventTime (e : TrackingEvent) : TrackingEvent :=
  { e with occurred_at := 0 }

/-- Erase every instant of an intermediate record, keeping presence or
absence of the optional dates. -/
def eraseDataTimes (d : TrackingData) : TrackingData :=
  { d with
    estimated_delivery_date := d.estimated_delivery_date.map (fun _ => 0)
    ship_date := d.ship_date.map (fun _ => 0)
    events := d.events.map (List.map eraseEventTime) }

/-- Erase every instant of a response body, keeping presence or absence
of the optional dates. -/
def eraseRespTimes (b : TrackingResponse) : TrackingResponse :=
  { b with
    estimated_delivery_date := b.estimated_delivery_date.map (fun _ => 0)
    ship_date := b.ship_date.map (fun _ => 0)
    events := b.events.map eraseEventTime }

/-- Erase every instant inside an HTTP response. -/
def eraseHttpTimes : HttpResponse → HttpResponse
  | .ok b => .ok (eraseRespTimes b)
  | r => r

set_option maxRecDepth 4096

/-- Dropping elements while a predicate holds leaves a list unchanged
when no element satisfies the predicate. -/
theorem dropWhile_eq_self_of_none {p : Char → Bool} {cs : List Char}
    (h : ∀ c ∈ cs, p c = false) : cs.dropWhile p = cs := by
  cases cs with
  | nil => rfl
  | cons a t => simp [List.dropWhile_cons, h a (by simp)]

/-- Trimming a string with no whitespace characters is the identity. -/
theorem jsTrim_eq_self {cs : List Char} (h : ∀ c ∈ cs, isJsWs c = false) :
    jsTrim cs = cs := by
  unfold jsTrim
  rw [dropWhile_eq_self_of_none h,
      dropWhile_eq_self_of_none (fun c hc => h c (List.mem_reverse.mp hc)),
      List.reverse_reverse]

/-- An upper-case letter or digit is not a whitespace character. -/
theorem not_ws_of_alnum {c : Char} (h : (isUpperAZ c || isDigitCh c) = true) :
    isJsWs c = false := by
  simp only [isJsWs, Bool.or_eq_false_iff, beq_eq_false_iff_ne]
  and_intros <;> (rintro rfl; revert h; decide)

/-- Upper-casing an upper-case letter or digit is the identity. -/
theorem toUpper_eq_self_of_alnum {c : Char} (h : (isUpperAZ c || isDigitCh c) = true) :
    c.toUpper = c := by
  have hn : c.toNat < 97 := by
    simp only [isUpperAZ, isDigitCh, Bool.or_eq_true, Bool.and_eq_true,
      decide_eq_true_eq] at h
    omega
  show (if c.toNat ≥ 97 ∧ c.toNat ≤ 122 then Char.ofNat (c.toNat - 32) else c) = c
  rw [if_neg (by omega)]

/-- Upper-casing a string of upper-case letters and digits is the
identity. -/
theorem jsToUpper_eq_self {cs : List Char}
    (h : ∀ c ∈ cs, (isUpperAZ c || isDigitCh c) = true) : jsToUpper cs = cs := by
  unfold jsToUpper
  have := List.map_congr_left (fun c hc => toUpper_eq_self_of_alnum (h c hc))
  simpa using this

/-- Every character of a string matching the alphabetic Canada Post
pattern is an upper-case letter or a digit. -/
theorem cp_alpha_chars {cs : List Char} (h : reCp1 cs = true) :
    ∀ c ∈ cs, (isUpperAZ c || isDigitCh c) = true := by
  match cs, h with
  | a :: b :: rest, h =>
    simp only [reCp1, Bool.and_eq_true, beq_iff_eq, List.all_eq_true] at h
    obtain ⟨⟨⟨⟨ha, hb⟩, hlen⟩, htake⟩, hdrop⟩ := h
    intro c hc
    rcases hc with _ | ⟨_, hc⟩
    · simp [ha]
    · rcases hc with _ | ⟨_, hc⟩
      · simp [hb]
      · have hsplit : rest = rest.take 9 ++ rest.drop 9 := (List.take_append_drop 9 rest).symm
        rw [hsplit] at hc
        rcases List.mem_append.mp hc with hm | hm
        · simp [htake c hm]
        · rw [hdrop] at hm
          rcases hm with _ | ⟨_, hm⟩
          · decide
          · rcases hm with _ | ⟨_, hm⟩
            · decide
            · cases hm

/-- The language of the Canada Post pattern `^[A-Z]{2}\d{9}CA$` is
contained in the language of the USPS pattern `^[A-Z]{2}\d{9}[A-Z]{2}$`. -/
theorem cp1_implies_usps3 {cs : List Char} (h : reCp1 cs = true) :
    reUsps3 cs = true := by
  match cs, h with
  | a :: b :: rest, h =>
    simp only [reCp1, Bool.and_eq_true, beq_iff_eq, List.all_eq_true] at h
    obtain ⟨⟨⟨⟨ha, hb⟩, hlen⟩, htake⟩, hdrop⟩ := h
    simp only [reUsps3, Bool.and_eq_true, beq_iff_eq, List.all_eq_true]
    refine ⟨⟨⟨⟨ha, hb⟩, hlen⟩, htake⟩, ?_⟩
    rw [hdrop]
    decide

/-- C9: every input matching the alphabetic Canada Post pattern (two
upper-case letters, nine digits, the literal `CA`) is classified as
`usps`, never `canada_post`: the USPS family is evaluated first and its
pattern `^[A-Z]{2}\d{9}[A-Z]{2}$` contains the Canada Post one, so the
alphabetic Canada Post branch is unreachable. -/
theorem cp_alpha_detected_as_usps (s : String) (h : reCp1 s.toList = true) :
    detectCarrier s = some "usps" ∧ reUsps3 s.toList = true := by
  have hchars := cp_alpha_chars h
  have htrim : jsTrim s.toList = s.toList :=
    jsTrim_eq_self (fun c hc => not_ws_of_alnum (hchars c hc))
  have hupper : jsToUpper s.toList = s.toList :=
    jsToUpper_eq_self hchars
  have husps3 := cp1_implies_usps3 h
  refine ⟨?_, husps3⟩
  unfold detectCarrier
  rw [htrim, hupper]
  have hfam : uspsFamily s.toList = true := by
    unfold uspsFamily
    simp only [Bool.or_eq_true]
    tauto
  rw [if_pos hfam]

/-- Witness for C9 at the concrete input `AB123456789CA`. -/
theorem cp_alpha_detected_as_usps_witness :
    reCp1 ("AB123456789CA").toList = true ∧
    (detectCarrier "AB123456789CA" = some "usps" ∧
     reUsps3 ("AB123456789CA").toList = true) :=
  ⟨by decide, cp_alpha_detected_as_usps "AB123456789CA" (by decide)⟩

/-- C3: for every non-empty tracking number the detector is a total
function (hence pure, deterministic and non-throwing in the embedding)
returning one of `usps`, `fedex`, `ups`, `dhl`, `canada_post` or the
no-match value (JS `null`, which the handler presents as `unknown`). -/
theorem detectCarrier_range (tn : String) (_h : tn ≠ "") :
    detectCarrier tn = some "usps" ∨ detectCarrier tn = some "fedex" ∨
    detectCarrier tn = some "ups" ∨ detectCarrier tn = some "dhl" ∨
    detectCarrier tn = some "canada_post" ∨ detectCarrier tn = none := by
  simp only [detectCarrier]
  repeat' split
  · exact Or.inl rfl
  · exact Or.inr (Or.inl rfl)
  · exact Or.inr (Or.inr (Or.inl rfl))
  · exact Or.inr (Or.inr (Or.inr (Or.inl rfl)))
  · exact Or.inr (Or.inr (Or.inr (Or.inr (Or.inl rfl))))
  · exact Or.inr (Or.inr (Or.inr (Or.inr (Or.inr rfl))))

/-- Witness for C3 at the concrete input `1Z999AA10123456784`. -/
theorem detectCarrier_range_witness :
    ("1Z999AA10123456784" ≠ "") ∧
    (detectCarrier "1Z999AA10123456784" = some "usps" ∨
     detectCarrier "1Z999AA10123456784" = some "fedex" ∨
     detectCarrier "1Z999AA10123456784" = some "ups" ∨
     detectCarrier "1Z999AA10123456784" = some "dhl" ∨
     detectCarrier "1Z999AA10123456784" = some "canada_post" ∨
     detectCarrier "1Z999AA10123456784" = none) :=
  ⟨by decide, detectCarrier_range "1Z999AA10123456784" (by decide)⟩

/-- C4: carrier detection equals evaluation of the ordered rule table
USPS, FedEx, UPS, DHL, Canada Post against the trimmed upper-cased
input, returning the first matching family; on `1Z999AA10123456784`
with no carrier supplied it yields `ups`, and the handler's response
carries the UPS tracking URL, which begins with
`https://www.ups.com/track?tracknum=`. -/
theorem detect_priority_and_ups_scenario :
    (∀ tn, detectCarrier tn = detectCarrierOrdered tn) ∧
    detectCarrier "1Z999AA10123456784" = some "ups" ∧
    (responseBody (handleTracking (some "1Z999AA10123456784") none false .failure 0)).map
        (fun b => b.tracking_url)
      = some (some ("https://www.ups.com/track?tracknum=" ++ "1Z999AA10123456784")) ∧
    (("https://www.ups.com/track?tracknum=".toList).isPrefixOf
        ("https://www.ups.com/track?tracknum=1Z999AA10123456784".toList)) = true := by
  refine ⟨fun tn => rfl, by decide, by decide, by decide⟩

/-- C2: the fallback generator chooses its synthetic status by summing
the character codes of the tracking number modulo 5 and indexing the
fixed ordered status list, and the chosen status does not depend on the
clock instant. -/
theorem fallback_status_from_charSum (tn c : String) (now t2 : Int) :
    (createDefaultTrackingInfo tn c now).status_code
      = some (possibleStatuses.getD (charSum tn % 5) "") ∧
    (createDefaultTrackingInfo tn c now).status_code
      = (createDefaultTrackingInfo tn c t2).status_code :=
  ⟨rfl, rfl⟩

/-- C6: a request with a missing or empty `tracking_number` receives the
400 response with body `error: Missing tracking number`,
`status: error`, and the result does not depend on the upstream outcome
or the clock, so no upstream call is attempted. -/
theorem missing_tracking_number_400 (carrier : Option String) (k : Bool)
    (u1 u2 : UpstreamResult) (t1 t2 : Int) :
    handleTracking none carrier k u1 t1 = .badRequest "Missing tracking number" "error" ∧
    handleTracking (some "") carrier k u1 t1 = .badRequest "Missing tracking number" "error" ∧
    handleTracking none carrier k u1 t1 = handleTracking none carrier k u2 t2 ∧
    handleTracking (some "") carrier k u1 t1 = handleTracking (some "") carrier k u2 t2 :=
  ⟨rfl, rfl, rfl, rfl⟩

/-- C7: with a non-empty tracking number, an upstream failure (thrown
request or non-2xx response, both raised by axios) or an empty shipment
match list is absorbed: the handler returns 200 with the
fallback-generated body, and no argument combination ever produces the
500 response. -/
theorem upstream_failure_falls_back (tnv : String) (carrier : Option String)
    (k : Bool) (u : UpstreamResult) (now : Int)
    (htn : tnv ≠ "") (hu : u = .failure ∨ u = .success []) :
    handleTracking (some tnv) carrier k u now = .ok (fallbackBody tnv carrier now) ∧
    (∀ q c' k' u' t', isServerError (handleTracking q c' k' u' t') = false) := by
  constructor
  · rcases hu with rfl | rfl <;>
      simp [handleTracking, fallbackBody, strTruthy, htn]
  · intro q c' k' u' t'
    unfold handleTracking
    split <;> rfl

/-- Witness for C7 at the concrete input `ABC123` with a failing
upstream call. -/
theorem upstream_failure_falls_back_witness :
    ("ABC123" ≠ "" ∧
     (UpstreamResult.failure = UpstreamResult.failure ∨
      UpstreamResult.failure = UpstreamResult.success [])) ∧
    (handleTracking (some "ABC123") none true UpstreamResult.failure 0
        = .ok (fallbackBody "ABC123" none 0) ∧
     (∀ q c' k' u' t', isServerError (handleTracking q c' k' u' t') = false)) :=
  ⟨⟨by decide, Or.inl rfl⟩,
   upstream_failure_falls_back "ABC123" none true .failure 0 (by decide) (Or.inl rfl)⟩

/-- C8 counterexample: normalizing an absent record yields the status
string `Unknown` with a capital U, not the claimed lower-case
`unknown`, at the concrete input `TN1` and carrier `fedex`. -/
theorem absent_normalize_status_capital_unknown :
    (formatTrackingResponse none "TN1" "fedex" 0).status = "Unknown" ∧
    ¬((formatTrackingResponse none "TN1" "fedex" 0).status = "unknown") := by
  decide

/-- C8 amended: normalizing an absent record yields status `Unknown`
(the code's literal, capital U), an empty events list, and the supplied
tracking number and carrier echoed back. -/
theorem absent_normalize_fields (tn c : String) (now : Int) :
    (formatTrackingResponse none tn c now).status = "Unknown" ∧
    (formatTrackingResponse none tn c now).events = [] ∧
    (formatTrackingResponse none tn c now).tracking_number = tn ∧
    (formatTrackingResponse none tn c now).carrier_code = c :=
  ⟨rfl, rfl, rfl, rfl⟩

/-- C10: the tracking URL lookup is case-sensitive while the
ShipStation carrier-code mapping lower-cases its key first: with the
supplied carrier `USPS` the pattern lookup misses (so the response's
`tracking_url` is null) although `usps` has a template, while the
mapped ShipStation code is still `stamps_com`; with `usps` supplied the
URL is attached. -/
theorem carrier_url_case_sensitivity :
    TRACKING_URL_PATTERNS "USPS" = none ∧
    TRACKING_URL_PATTERNS "usps"
      = some "https://tools.usps.com/go/TrackConfirmAction?tLabels=" ∧
    mappedCode (some "USPS") = some "stamps_com" ∧
    (responseBody (handleTracking (some "9400100000000000000000") (some "USPS") false .failure 0)).map
        (fun b => b.tracking_url) = some none ∧
    (responseBody (handleTracking (some "9400100000000000000000") (some "usps") false .failure 0)).map
        (fun b => b.tracking_url)
      = some (some ("https://tools.usps.com/go/TrackConfirmAction?tLabels=" ++ "9400100000000000000000")) := by
  refine ⟨rfl, rfl, rfl, by decide, by decide⟩

/-- C1 counterexample: the fallback generator reads the wall clock for
its event and estimate instants, so two calls with the same tracking
number and carrier made at different instants produce different
records, and the corresponding `GET /tracking` bodies differ as well. -/
theorem fallback_record_depends_on_clock :
    createDefaultTrackingInfo "A" "unknown" 0
      ≠ createDefaultTrackingInfo "A" "unknown" 3600000 ∧
    handleTracking (some "A") none false .failure 0
      ≠ handleTracking (some "A") none false .failure 3600000 := by
  decide

/-- C1 amended: the fallback generator and the endpoint are
deterministic relative to the clock: with the clock instant fixed the
handler output is a function of the query alone (in particular
independent of the unused upstream outcome when no credential is
configured), and across instants the generated records and bodies agree
on everything except the rendered timestamps. -/
theorem fallback_deterministic_up_to_clock (tn c : String) (t1 t2 : Int)
    (tnq carrier : Option String) (u1 u2 : UpstreamResult) :
    eraseDataTimes (createDefaultTrackingInfo tn c t1)
      = eraseDataTimes (createDefaultTrackingInfo tn c t2) ∧
    handleTracking tnq carrier false u1 t1 = handleTracking tnq carrier false u2 t1 ∧
    eraseHttpTimes (handleTracking tnq carrier false u1 t1)
      = eraseHttpTimes (handleTracking tnq carrier false u2 t2) := by
  refine ⟨?_, rfl, ?_⟩
  · have h5 : charSum tn % 5 = 0 ∨ charSum tn % 5 = 1 ∨ charSum tn % 5 = 2 ∨
        charSum tn % 5 = 3 ∨ charSum tn % 5 = 4 := by omega
    rcases h5 with h | h | h | h | h <;>
      simp [eraseDataTimes, createDefaultTrackingInfo, defaultEvents, defaultEstimated,
        possibleStatuses, eraseEventTime, h, jsToLower, replaceFirstUnderscore]
  · cases tnq with
    | none => simp [handleTracking, strTruthy, eraseHttpTimes]
    | some s =>
      by_cases hs : s = ""
      · subst hs
        simp [handleTracking, strTruthy, eraseHttpTimes]
      · have h5 : charSum s % 5 = 0 ∨ charSum s % 5 = 1 ∨ charSum s % 5 = 2 ∨
            charSum s % 5 = 3 ∨ charSum s % 5 = 4 := by omega
        rcases h5 with h | h | h | h | h <;>
          simp [handleTracking, eraseHttpTimes, eraseRespTimes, eraseEventTime,
            formatTrackingResponse, createDefaultTrackingInfo, defaultEvents,
            defaultEstimated, possibleStatuses, statusMap, strTruthy, jsToLower,
            replaceFirstUnderscore, h, hs, msPerDay, msPerHour]

/-- C5 counterexample: a record derived from a successful upstream
lookup has an empty events list and a null estimated delivery date even
though its status (here `In Transit`) is neither `delivered` nor any
spelling of unknown, refuting the claimed system-wide invariant. -/
theorem upstream_record_breaks_invariant :
    (responseBody (handleTracking (some "ABC") (some "ups") true
        (.success [{ shipmentStatus := some "In Transit", shipDate := some 100 }]) 0)).map
      (fun b => (b.status, b.events, b.estimated_delivery_date))
    = some ("In Transit", [], none) := by decide

/-- C5 amended: every fallback-generated response satisfies the
invariant: the estimated delivery date is null exactly when the status
is `delivered`, and the events list is never empty (upstream-derived
records instead always have empty events and a null estimate,
regardless of status). -/
theorem fallback_invariant (tn c : String) (now : Int) :
    ((formatTrackingResponse (some (createDefaultTrackingInfo tn c now)) tn c now).status
        = "delivered"
      ↔ (formatTrackingResponse (some (createDefaultTrackingInfo tn c now)) tn c
          now).estimated_delivery_date = none) ∧
    (formatTrackingResponse (some (createDefaultTrackingInfo tn c now)) tn c now).events ≠ [] := by
  have h5 : charSum tn % 5 = 0 ∨ charSum tn % 5 = 1 ∨ charSum tn % 5 = 2 ∨
      charSum tn % 5 = 3 ∨ charSum tn % 5 = 4 := by omega
  rcases h5 with h | h | h | h | h <;>
    simp [formatTrackingResponse, createDefaultTrackingInfo, defaultEvents, defaultEstimated,
      possibleStatuses, statusMap, strTruthy, jsToLower, replaceFirstUnderscore, h,
      msPerDay, msPerHour]
